import Mathlib

/-!
Shallow embedding of `kopf/engines/peering.py`: the peer data model, the
peering event processor (freeze-flag state machine), the keepalive loop's
timing and shutdown semantics, the touch/clean write helpers, presence
detection and identity resolution.

Modelling conventions:
* wall-clock instants and durations are integers (seconds);
* the only I/O boundary is the external store client; its calls are recorded
  as explicit `Effect` values, and its responses are passed in as parameters;
* log lines are recorded as structured `Effect` constructors carrying the
  same data the Python f-strings interpolate;
* the async `Toggle` freeze flag is a `Bool` (is_off = `false`).
-/

namespace Peering

/-- One entry's raw fields from the shared record's status mapping, with the
Python keyword defaults of `Peer.__init__` (`priority=0`, `lastseen=None`,
`lifetime=60`). -/
structure PeerInfo where
  priority : Int := 0
  lastseen : Option Int := none
  lifetime : Int := 60
deriving DecidableEq

/-- The parsed peer, mirroring class `Peer`: the persisted fields plus the
derived `deadline` and `is_dead`, both computed at construction. -/
structure Peer where
  identity : String
  priority : Int
  lifetime : Int
  lastseen : Int
  deadline : Int
  is_dead : Bool
deriving DecidableEq

/-- `Peer.__init__` (peering.py lines 59-78): `lastseen` defaults to the
construction-time clock, `deadline = lastseen + lifetime`, and
`is_dead = deadline <= utcnow()` is evaluated once, at construction, against
the construction-time clock `now`. -/
def mkPeer (now : Int) (identity : String) (priority : Int)
    (lastseen : Option Int) (lifetime : Int) : Peer :=
  let ls : Int := lastseen.getD now
  let dl : Int := ls + lifetime
  { identity := identity, priority := priority, lifetime := lifetime,
    lastseen := ls, deadline := dl, is_dead := decide (dl ≤ now) }

/-- The serialized persisted fields, mirroring `Peer.as_dict` (only
priority/lastseen/lifetime; derived fields are never serialized). -/
structure PeerDict where
  priority : Int
  lastseen : Int
  lifetime : Int
deriving DecidableEq

def Peer.as_dict (p : Peer) : PeerDict :=
  { priority := p.priority, lastseen := p.lastseen, lifetime := p.lifetime }

/-- The two shared-record kinds (`guess_resource` targets). -/
def CLUSTER_PEERING_RESOURCE : String := "clusterkopfpeerings"

def NAMESPACED_PEERING_RESOURCE : String := "kopfpeerings"

/-- `guess_resource` (lines 271-272): cluster-scoped kind when no namespace
is given, else the namespace-scoped kind. -/
def guess_resource (ns : Option String) : String :=
  match ns with
  | none => CLUSTER_PEERING_RESOURCE
  | some _ => NAMESPACED_PEERING_RESOURCE

/-- The configuration fields of `settings.peering` consumed by this module. -/
structure Settings where
  name : String
  priority : Int
  lifetime : Int
  standalone : Bool
  mandatory : Bool
  stealth : Bool
deriving DecidableEq

/-- Observable actions: each constructor mirrors one `logger.*` call or one
store-client call in peering.py, carrying the data the call interpolates. -/
inductive Effect where
  | logInfoFreezing (prio_peers : List Peer)
  | logWarningConflict (same_peers : List Peer)
  | logWarningFreezeAll (peers : List Peer)
  | logInfoResuming
  | logDebugKeepAlive (name : String) (ns : Option String) (found : Bool)
  | logWarningPeeringAbsent
  | logExceptionRemoveSelf
  | patchObj (resource : String) (ns : Option String) (name : String)
             (status : List (String × Option PeerDict))
  | readObj (resource : String) (ns : Option String) (name : String)
deriving DecidableEq

/-- A patch request sent to the store client (vs. a log line). -/
def isPatchEffect : Effect → Bool
  | Effect.patchObj _ _ _ _ => true
  | _ => false

/-- A read request sent to the store client. -/
def isReadEffect : Effect → Bool
  | Effect.readObj _ _ _ => true
  | _ => false

/-- A raw change-notification body: the object's metadata namespace/name and
its status mapping (`none` when the body has no `status` key at all). -/
structure RawEvent where
  meta_namespace : Option String
  meta_name : Option String
  status : Option (List (String × PeerInfo))
deriving DecidableEq

/-- Line 121: one `Peer` per status entry, identity taken from the mapping
key; `body.get('status', {})` makes a missing mapping empty. -/
def parse_peers (now : Int) (raw_event : RawEvent) : List Peer :=
  (raw_event.status.getD []).map
    (fun pr => mkPeer now pr.1 pr.2.priority pr.2.lastseen pr.2.lifetime)

/-- Line 122: `[peer for peer in peers if peer.is_dead]`. -/
def dead_peers_of (peers : List Peer) : List Peer :=
  peers.filter (fun p => p.is_dead)

/-- Line 123: live peers excluding self. -/
def live_peers_of (peers : List Peer) (identity : String) : List Peer :=
  peers.filter (fun p => !p.is_dead && p.identity != identity)

/-- Line 124: live peers of strictly higher priority than own. -/
def prio_peers_of (live : List Peer) (own_priority : Int) : List Peer :=
  live.filter (fun p => decide (own_priority < p.priority))

/-- Line 125: live peers of priority equal to own. -/
def same_peers_of (live : List Peer) (own_priority : Int) : List Peer :=
  live.filter (fun p => decide (p.priority = own_priority))

/-- `clean` (lines 205-216): one single patch request whose status mapping
sets every given peer's identity to `None`. -/
def clean (peers : List Peer) (settings : Settings) (ns : Option String) :
    List Effect :=
  [Effect.patchObj (guess_resource ns) ns settings.name
    (peers.map (fun p => (p.identity, (none : Option PeerDict))))]

/-- The decision block of `process_peering_event` (lines 130-142), returning
the new freeze-flag value and the log lines emitted, in order.  Note: in the
equal-priority branch the conflict warning (line 135) is emitted before the
`is_off` check; only the freeze-all warning and the flip are guarded. -/
def peering_decision (freeze_mode : Bool) (peers prio_peers same_peers : List Peer) :
    Bool × List Effect :=
  if prio_peers ≠ [] then
    if freeze_mode = false then
      (true, [Effect.logInfoFreezing prio_peers])
    else
      (freeze_mode, [])
  else if same_peers ≠ [] then
    if freeze_mode = false then
      (true, [Effect.logWarningConflict same_peers, Effect.logWarningFreezeAll peers])
    else
      (freeze_mode, [Effect.logWarningConflict same_peers])
  else
    if freeze_mode = true then
      (false, [Effect.logInfoResuming])
    else
      (freeze_mode, [])

/-- The result of one invocation of the event processor: the freeze flag's
new value and the effects (client calls and log lines) issued, in order. -/
structure ProcResult where
  freeze : Bool
  effects : List Effect
deriving DecidableEq

/-- `process_peering_event` (lines 92-142): filter on the configured peering
target, parse and partition the peer set, clean dead peers (one batched
patch) when `autoclean` is set, then run the priority-arbitration decision. -/
def process_peering_event (now : Int) (raw_event : RawEvent) (freeze_mode : Bool)
    (ns : Option String) (identity : String) (settings : Settings)
    (autoclean : Bool) : ProcResult :=
  if raw_event.meta_namespace ≠ ns ∨ raw_event.meta_name ≠ some settings.name then
    { freeze := freeze_mode, effects := [] }
  else
    let peers := parse_peers now raw_event
    let dead_peers := dead_peers_of peers
    let live_peers := live_peers_of peers identity
    let prio_peers := prio_peers_of live_peers settings.priority
    let same_peers := same_peers_of live_peers settings.priority
    let cleanEffs := if autoclean ∧ dead_peers ≠ [] then clean dead_peers settings ns else []
    let d := peering_decision freeze_mode peers prio_peers same_peers
    { freeze := d.1, effects := cleanEffs ++ d.2 }

/-- `touch` (lines 179-202): build the own `Peer` (priority from settings,
lifetime from settings unless overridden), patch own status entry (`None`
when the peer is dead, the persisted fields otherwise), then maybe log a
keep-alive debug line.  `rsp` is the store client's response to the patch
(`none` when the target object no longer exists — not an error). -/
def touch (now : Int) (identity : String) (settings : Settings)
    (ns : Option String) (lifetime : Option Int) (rsp : Option Unit) :
    List Effect :=
  let name := settings.name
  let resource := guess_resource ns
  let peer := mkPeer now identity settings.priority none (lifetime.getD settings.lifetime)
  let patch : List (String × Option PeerDict) :=
    [(identity, if peer.is_dead then none else some peer.as_dict)]
  [Effect.patchObj resource ns name patch] ++
    (if !settings.stealth || rsp.isNone then
      [Effect.logDebugKeepAlive name ns rsp.isSome]
    else [])

/-- The fatal configuration error of `detect_presence` (line 232). -/
inductive PresenceError where
  | mandatoryPeeringNotFound (name : String)
deriving DecidableEq

/-- `detect_presence` (lines 219-237): with `standalone` return `None` with
no I/O; otherwise issue one read (`obj` is its response, `none` = absent);
absent + mandatory raises; absent + optional warns and returns `False`;
present returns `True`. -/
def detect_presence (settings : Settings) (ns : Option String)
    (obj : Option Unit) : List Effect × Except PresenceError (Option Bool) :=
  if settings.standalone then
    ([], Except.ok none)
  else
    let resource := guess_resource ns
    let name := settings.name
    let reads := [Effect.readObj resource ns name]
    if settings.mandatory && obj.isNone then
      (reads, Except.error (PresenceError.mandatoryPeeringNotFound name))
    else if obj.isNone then
      (reads ++ [Effect.logWarningPeeringAbsent], Except.ok (some false))
    else
      (reads, Except.ok (some true))

/-- Line 164: the keepalive loop's sleep interval,
`max(1, int(settings.peering.lifetime - 10))`. -/
def keepalive_sleep (lifetime : Int) : Int :=
  max 1 (lifetime - 10)

/-- The exceptions the finalizer of `keepalive` distinguishes:
`asyncio.CancelledError` vs any other `Exception`. -/
inductive PyExc where
  | cancelledError
  | exception
deriving DecidableEq

/-- One invocation of `touch` from the finalizer: the explicit `lifetime`
keyword argument and whether the call is wrapped in `asyncio.shield`. -/
structure ShieldedTouch where
  lifetime : Option Int
  shielded : Bool
deriving DecidableEq

/-- Lines 167-172: the one final write, `shield(touch(..., lifetime=0))`. -/
def keepalive_final_touch : ShieldedTouch :=
  { lifetime := some 0, shielded := true }

/-- What one run of the `finally` block did: the touch calls it issued, the
log lines it emitted, and the exception it let escape (if any). -/
structure FinalizerRun where
  touches : List ShieldedTouch
  logs : List Effect
  raised : Option PyExc
deriving DecidableEq

/-- The `finally` block of `keepalive` (lines 165-176): one shielded
`touch(lifetime=0)`; `except CancelledError: pass`; any other exception is
logged via `logger.exception` and swallowed. `touchOutcome` is how that one
write finished. -/
def keepalive_finally (touchOutcome : Except PyExc Unit) : FinalizerRun :=
  match touchOutcome with
  | Except.ok _ =>
      { touches := [keepalive_final_touch], logs := [], raised := none }
  | Except.error PyExc.cancelledError =>
      { touches := [keepalive_final_touch], logs := [], raised := none }
  | Except.error PyExc.exception =>
      { touches := [keepalive_final_touch],
        logs := [Effect.logExceptionRemoveSelf], raised := none }

/-- Line 267: the alphabet the 3-character random suffix is drawn from,
exactly as written in the source. -/
def detect_own_id_alphabet : List Char :=
  "abcdefhijklmnopqrstuvwxyz0123456789".toList

/-- `random.choices(alphabet, k=3)`: the strings producible as a suffix. -/
def producible_suffix (rnd : String) : Prop :=
  rnd.length = 3 ∧ ∀ c ∈ rnd.toList, c ∈ detect_own_id_alphabet

/-- `detect_own_id` (lines 240-268): an environment-supplied pod id is
returned verbatim; else `user@host` when `manual`, else
`user@host/<utc-timestamp>/<random-suffix>`.  The environment inputs
(`POD_ID`, user, hostname, clock, drawn suffix) are parameters. -/
def detect_own_id (pod : Option String) (user : String) (host : String)
    (now : String) (rnd : String) (manual : Bool) : String :=
  match pod with
  | some p => p
  | none =>
      if manual then user ++ "@" ++ host
      else user ++ "@" ++ host ++ "/" ++ now ++ "/" ++ rnd

/-- Lines 121-124 composed: the strictly-higher-priority live peers of one
notification. -/
def event_prio_peers (now : Int) (ev : RawEvent) (identity : String)
    (settings : Settings) : List Peer :=
  prio_peers_of (live_peers_of (parse_peers now ev) identity) settings.priority

/-- Lines 121-125 composed: the equal-priority live peers of one
notification. -/
def event_same_peers (now : Int) (ev : RawEvent) (identity : String)
    (settings : Settings) : List Peer :=
  same_peers_of (live_peers_of (parse_peers now ev) identity) settings.priority

/-- Lines 121-122 composed: the dead peers of one notification. -/
def event_dead_peers (now : Int) (ev : RawEvent) : List Peer :=
  dead_peers_of (parse_peers now ev)

/-! Concrete fixtures used to instantiate the theorems below. -/

def exSettings : Settings :=
  { name := "default", priority := 10, lifetime := 60,
    standalone := false, mandatory := false, stealth := false }

def exEventPrio : RawEvent :=
  { meta_namespace := none, meta_name := some "default",
    status := some [("high", { priority := 20, lastseen := some 100, lifetime := 60 })] }

def exEventSame : RawEvent :=
  { meta_namespace := none, meta_name := some "default",
    status := some [("twin", { priority := 10, lastseen := some 100, lifetime := 60 })] }

def exEventDead : RawEvent :=
  { meta_namespace := none, meta_name := some "default",
    status := some
      [("d1", { priority := 0, lastseen := some 0, lifetime := 10 }),
       ("d2", { priority := 0, lastseen := some 10, lifetime := 20 }),
       ("d3", { priority := 0, lastseen := some 20, lifetime := 30 })] }

def exEventEmpty : RawEvent :=
  { meta_namespace := none, meta_name := some "default", status := none }

/-! Shared helper lemmas. -/

/-- The decision block emits only log lines, never a patch request. -/
theorem peering_decision_no_patches (f : Bool) (ps pr sm : List Peer) :
    (peering_decision f ps pr sm).2.filter isPatchEffect = [] := by
  unfold peering_decision
  by_cases h1 : pr = [] <;> by_cases h2 : sm = [] <;> cases f <;>
    simp [h1, h2, isPatchEffect]

/-- Rerunning the decision block from the flag value it produced flips
nothing further, and emits at most the (unguarded) conflict warning. -/
theorem peering_decision_stable (f : Bool) (ps pr sm : List Peer) :
    (peering_decision (peering_decision f ps pr sm).1 ps pr sm).1 =
      (peering_decision f ps pr sm).1 ∧
    ∀ e ∈ (peering_decision (peering_decision f ps pr sm).1 ps pr sm).2,
      ∃ l, e = Effect.logWarningConflict l := by
  unfold peering_decision
  by_cases h1 : pr = [] <;> by_cases h2 : sm = [] <;> cases f <;>
    simp [h1, h2]

/-- Unfolding of the event processor on a notification that matches the
configured peering target. -/
theorem process_peering_event_matched (now : Int) (ev : RawEvent) (flag : Bool)
    (ns : Option String) (identity : String) (settings : Settings)
    (autoclean : Bool)
    (hns : ev.meta_namespace = ns) (hname : ev.meta_name = some settings.name) :
    process_peering_event now ev flag ns identity settings autoclean =
      { freeze := (peering_decision flag (parse_peers now ev)
          (event_prio_peers now ev identity settings)
          (event_same_peers now ev identity settings)).1,
        effects :=
          (if autoclean ∧ event_dead_peers now ev ≠ [] then
            clean (event_dead_peers now ev) settings ns
          else []) ++
          (peering_decision flag (parse_peers now ev)
            (event_prio_peers now ev identity settings)
            (event_same_peers now ev identity settings)).2 } := by
  simp [process_peering_event, hns, hname,
    event_prio_peers, event_same_peers, event_dead_peers]

/-- C2: a constructed Peer's `is_dead` is true exactly when
`lastseen + lifetime` is at or before the construction-time clock `now`;
exact equality counts as dead; `deadline = lastseen + lifetime`.  `is_dead`
is a stored field of the record built by `mkPeer`, fixed by the
construction-time clock alone, never re-evaluated afterwards. -/
theorem peer_is_dead_iff (now : Int) (identity : String)
    (priority lastseen lifetime : Int) :
    ((mkPeer now identity priority (some lastseen) lifetime).is_dead = true ↔
      lastseen + lifetime ≤ now) ∧
    (lastseen + lifetime = now →
      (mkPeer now identity priority (some lastseen) lifetime).is_dead = true) ∧
    (mkPeer now identity priority (some lastseen) lifetime).deadline =
      lastseen + lifetime := by
  refine ⟨?_, ?_, ?_⟩
  · simp [mkPeer]
  · intro h
    simp [mkPeer, h]
  · rfl

/-- C2 witness: the boundary case `lastseen + lifetime = now` is dead. -/
theorem peer_is_dead_iff_witness :
    (mkPeer 100 "p" 0 (some 40) 60).is_dead = true := by
  exact (peer_is_dead_iff 100 "p" 0 40 60).1.mpr (by decide)

/-- C9 counterexample: with lifetime 1 the sleep interval is 1, which is not
strictly shorter than the lifetime. -/
theorem keepalive_sleep_not_shorter_cex :
    keepalive_sleep 1 = 1 ∧ ¬ keepalive_sleep 1 < 1 := by
  decide

/-- C9 (amended): the keepalive sleep interval is `max(1, lifetime - 10)`
for every lifetime, and it is strictly shorter than the lifetime whenever
the lifetime is at least 2 seconds. -/
theorem keepalive_sleep_interval (lifetime : Int) :
    keepalive_sleep lifetime = max 1 (lifetime - 10) ∧
    (2 ≤ lifetime → keepalive_sleep lifetime < lifetime) := by
  constructor
  · rfl
  · intro h
    rw [keepalive_sleep, max_def]
    split <;> omega

/-- C9 witness: at the default lifetime of 60s the interval is shorter. -/
theorem keepalive_sleep_interval_witness :
    keepalive_sleep 60 < 60 := by
  exact (keepalive_sleep_interval 60).2 (by decide)

/-- C7: the suffix alphabet written in the source omits the letter `g`
(it has 35 characters, not 36), so no producible random suffix can ever
contain `g` — contradicting the claim that every lowercase latin letter is
a possible suffix character. -/
theorem detect_own_id_alphabet_omits_g :
    'g' ∉ detect_own_id_alphabet ∧ detect_own_id_alphabet.length = 35 := by
  decide

/-- C5: however the final `touch` write finishes, the `finally` block of
`keepalive` issues exactly one write, with `lifetime = 0` and shielded from
cancellation; no exception escapes; a non-cancellation error from the write
is logged. -/
theorem keepalive_shutdown_contract (touchOutcome : Except PyExc Unit) :
    (keepalive_finally touchOutcome).touches =
      [{ lifetime := some 0, shielded := true }] ∧
    (keepalive_finally touchOutcome).raised = none ∧
    (touchOutcome = Except.error PyExc.exception →
      (keepalive_finally touchOutcome).logs = [Effect.logExceptionRemoveSelf]) ∧
    (touchOutcome = Except.error PyExc.cancelledError →
      (keepalive_finally touchOutcome).logs = []) := by
  cases touchOutcome with
  | ok u => simp [keepalive_finally, keepalive_final_touch]
  | error e => cases e <;> simp [keepalive_finally, keepalive_final_touch]

/-- C5 witness: a failing final write is logged and nothing escapes. -/
theorem keepalive_shutdown_contract_witness :
    (keepalive_finally (Except.error PyExc.exception)).raised = none ∧
    (keepalive_finally (Except.error PyExc.exception)).logs =
      [Effect.logExceptionRemoveSelf] := by
  refine ⟨(keepalive_shutdown_contract (Except.error PyExc.exception)).2.1,
    (keepalive_shutdown_contract (Except.error PyExc.exception)).2.2.1 rfl⟩

/-- C6: presence detection returns Disabled (`none`) without any I/O when
standalone is configured; otherwise it issues exactly one read of the shared
record; if the record is absent and peering is mandatory it raises the fatal
configuration error; if absent and optional it returns fallback-to-standalone
(`some false`) with a warning; otherwise it returns Present (`some true`). -/
theorem detect_presence_contract (settings : Settings) (ns : Option String)
    (obj : Option Unit) :
    (settings.standalone = true →
      detect_presence settings ns obj = ([], Except.ok none)) ∧
    (settings.standalone = false →
      ((detect_presence settings ns obj).1.filter isReadEffect).length = 1 ∧
      (obj = none → settings.mandatory = true →
        (detect_presence settings ns obj).2 =
          Except.error (PresenceError.mandatoryPeeringNotFound settings.name)) ∧
      (obj = none → settings.mandatory = false →
        (detect_presence settings ns obj).2 = Except.ok (some false) ∧
        Effect.logWarningPeeringAbsent ∈ (detect_presence settings ns obj).1) ∧
      (obj ≠ none →
        (detect_presence settings ns obj).2 = Except.ok (some true))) := by
  rcases settings with ⟨name, priority, lifetime, standalone, mandatory, stealth⟩
  cases standalone <;> cases mandatory <;> cases obj <;>
    simp [detect_presence, isReadEffect]

/-- C6 witness: mandatory peering with an absent record is the fatal
configuration error, reached through one read. -/
theorem detect_presence_contract_witness :
    ((detect_presence { exSettings with mandatory := true } none none).1.filter
      isReadEffect).length = 1 ∧
    (detect_presence { exSettings with mandatory := true } none none).2 =
      Except.error (PresenceError.mandatoryPeeringNotFound "default") := by
  refine ⟨((detect_presence_contract { exSettings with mandatory := true } none none).2 rfl).1,
    ((detect_presence_contract { exSettings with mandatory := true } none none).2 rfl).2.1 rfl rfl⟩

/-- C4: `touch` patches the own identity's status entry to `None` when the
constructed Peer is dead, and to its persisted fields (priority, lastseen,
lifetime) when live; when the store reports the shared record absent
(`rsp = none`) a debug-severity keep-alive line with result "not found" is
still emitted; and every effect of `touch` is the one patch or a debug log —
never a warning, an exception log, or an error. -/
theorem touch_write_semantics (now : Int) (identity : String)
    (settings : Settings) (ns : Option String) (lifetime : Option Int)
    (rsp : Option Unit) :
    ((mkPeer now identity settings.priority none
        (lifetime.getD settings.lifetime)).is_dead = true →
      Effect.patchObj (guess_resource ns) ns settings.name [(identity, none)] ∈
        touch now identity settings ns lifetime rsp) ∧
    ((mkPeer now identity settings.priority none
        (lifetime.getD settings.lifetime)).is_dead = false →
      Effect.patchObj (guess_resource ns) ns settings.name
          [(identity, some (mkPeer now identity settings.priority none
            (lifetime.getD settings.lifetime)).as_dict)] ∈
        touch now identity settings ns lifetime rsp) ∧
    (rsp = none →
      Effect.logDebugKeepAlive settings.name ns false ∈
        touch now identity settings ns lifetime rsp) ∧
    (∀ e ∈ touch now identity settings ns lifetime rsp,
      isPatchEffect e = true ∨ ∃ n m f, e = Effect.logDebugKeepAlive n m f) := by
  refine ⟨?_, ?_, ?_, ?_⟩
  · intro h
    simp [touch, h]
  · intro h
    simp [touch, h]
  · intro h
    subst h
    simp [touch]
  · intro e he
    simp only [touch, List.mem_append, List.mem_singleton] at he
    rcases he with h1 | h2
    · subst h1
      left
      rfl
    · right
      split at h2
      · simp at h2
        exact ⟨_, _, _, h2⟩
      · simp at h2

/-- C4 witness: with the lifetime override 0 the constructed Peer is dead
and the patch deletes the own entry; the absent record is logged at debug
severity. -/
theorem touch_write_semantics_witness :
    Effect.patchObj (guess_resource none) none "default" [("me", none)] ∈
      touch 100 "me" exSettings none (some 0) none ∧
    Effect.logDebugKeepAlive "default" none false ∈
      touch 100 "me" exSettings none (some 0) none := by
  refine ⟨(touch_write_semantics 100 "me" exSettings none (some 0) none).1 (by decide),
    (touch_write_semantics 100 "me" exSettings none (some 0) none).2.2.1 rfl⟩

/-- C8: when cleanup runs (autoclean on, some dead peers), the event
processor's effects contain exactly one patch request, and that single
batched patch sets every dead peer's entry to `None`. -/
theorem clean_one_batched_patch (now : Int) (ev : RawEvent) (flag : Bool)
    (ns : Option String) (identity : String) (settings : Settings)
    (hns : ev.meta_namespace = ns) (hname : ev.meta_name = some settings.name)
    (hdead : event_dead_peers now ev ≠ []) :
    (process_peering_event now ev flag ns identity settings true).effects.filter
        isPatchEffect =
      [Effect.patchObj (guess_resource ns) ns settings.name
        ((event_dead_peers now ev).map
          (fun p => (p.identity, (none : Option PeerDict))))] := by
  rw [process_peering_event_matched now ev flag ns identity settings true hns hname]
  simp [hdead, clean, List.filter_append, peering_decision_no_patches,
    isPatchEffect]

/-- C8 witness: three dead peers in one notification are removed by one
single batched patch naming all three. -/
theorem clean_one_batched_patch_witness :
    (process_peering_event 100 exEventDead false none "me" exSettings
        true).effects.filter isPatchEffect =
      [Effect.patchObj "clusterkopfpeerings" none "default"
        [("d1", none), ("d2", none), ("d3", none)]] := by
  have h := clean_one_batched_patch 100 exEventDead false none "me" exSettings
    rfl rfl (by decide)
  simpa using h

/-- The cleanup step emits only patch requests. -/
theorem clean_effects_are_patches (dead : List Peer) (settings : Settings)
    (ns : Option String) (ac : Bool) :
    ∀ e ∈ (if ac ∧ dead ≠ [] then clean dead settings ns else []),
      isPatchEffect e = true := by
  split
  · intro e he
    simp [clean] at he
    subst he
    rfl
  · intro e he
    simp at he

/-- With the flag already on, the higher-priority branch emits nothing. -/
theorem peering_decision_prio_on (ps pr sm : List Peer) (h : pr ≠ []) :
    peering_decision true ps pr sm = (true, []) := by
  simp [peering_decision, h]

/-- With the flag already off and no live contenders, nothing is emitted. -/
theorem peering_decision_none_off (ps pr sm : List Peer)
    (h1 : pr = []) (h2 : sm = []) :
    peering_decision false ps pr sm = (false, []) := by
  simp [peering_decision, h1, h2]

/-- C1: on a matching notification the decision is taken in fixed order with
first match winning: strictly-higher-priority live peers force the flag on
(flipping only when it was off, with a freeze log; when already on, only
cleanup patches are issued); else equal-priority live peers force the flag
on and the conflict warning naming the colliding peers is emitted (the
freeze-all warning only when the flag was off); else the flag ends off
(flipped only when it was on). -/
theorem process_peering_event_decision_order (now : Int) (ev : RawEvent)
    (flag : Bool) (ns : Option String) (identity : String)
    (settings : Settings) (autoclean : Bool)
    (hns : ev.meta_namespace = ns) (hname : ev.meta_name = some settings.name) :
    (event_prio_peers now ev identity settings ≠ [] →
      (process_peering_event now ev flag ns identity settings autoclean).freeze = true ∧
      (flag = false →
        Effect.logInfoFreezing (event_prio_peers now ev identity settings) ∈
          (process_peering_event now ev flag ns identity settings autoclean).effects) ∧
      (flag = true →
        ∀ e ∈ (process_peering_event now ev flag ns identity settings autoclean).effects,
          isPatchEffect e = true)) ∧
    (event_prio_peers now ev identity settings = [] →
      event_same_peers now ev identity settings ≠ [] →
      (process_peering_event now ev flag ns identity settings autoclean).freeze = true ∧
      Effect.logWarningConflict (event_same_peers now ev identity settings) ∈
        (process_peering_event now ev flag ns identity settings autoclean).effects ∧
      (flag = false →
        Effect.logWarningFreezeAll (parse_peers now ev) ∈
          (process_peering_event now ev flag ns identity settings autoclean).effects)) ∧
    (event_prio_peers now ev identity settings = [] →
      event_same_peers now ev identity settings = [] →
      (process_peering_event now ev flag ns identity settings autoclean).freeze = false ∧
      (flag = false →
        ∀ e ∈ (process_peering_event now ev flag ns identity settings autoclean).effects,
          isPatchEffect e = true)) := by
  rw [process_peering_event_matched now ev flag ns identity settings autoclean hns hname]
  refine ⟨?_, ?_, ?_⟩
  · intro hprio
    refine ⟨?_, ?_, ?_⟩
    · cases flag <;> simp [peering_decision, hprio]
    · intro hf
      subst hf
      simp [peering_decision, hprio]
    · intro hf
      subst hf
      rw [peering_decision_prio_on _ _ _ hprio, List.append_nil]
      exact clean_effects_are_patches (event_dead_peers now ev) settings ns autoclean
  · intro hprio hsame
    refine ⟨?_, ?_, ?_⟩
    · cases flag <;> simp [peering_decision, hprio, hsame]
    · cases flag <;> simp [peering_decision, hprio, hsame]
    · intro hf
      subst hf
      simp [peering_decision, hprio, hsame]
  · intro hprio hsame
    refine ⟨?_, ?_⟩
    · cases flag <;> simp [peering_decision, hprio, hsame]
    · intro hf
      subst hf
      rw [peering_decision_none_off _ _ _ hprio hsame, List.append_nil]
      exact clean_effects_are_patches (event_dead_peers now ev) settings ns autoclean

/-- C1 witness: one live higher-priority peer turns the flag on and logs the
freeze. -/
theorem process_peering_event_decision_order_witness :
    (process_peering_event 100 exEventPrio false none "me" exSettings true).freeze = true ∧
    Effect.logInfoFreezing (event_prio_peers 100 exEventPrio "me" exSettings) ∈
      (process_peering_event 100 exEventPrio false none "me" exSettings true).effects := by
  have h := process_peering_event_decision_order 100 exEventPrio false none "me"
    exSettings true rfl rfl
  exact ⟨(h.1 (by decide)).1, (h.1 (by decide)).2.1 rfl⟩

/-- C3 counterexample: with one live equal-priority peer, the second
invocation with an unchanged peer set emits the conflict warning again — an
additional log line, refuting the claim. -/
theorem process_second_invocation_cex :
    (process_peering_event 100 exEventSame
        (process_peering_event 100 exEventSame false none "me" exSettings true).freeze
        none "me" exSettings true).effects =
      [Effect.logWarningConflict [mkPeer 100 "twin" 10 (some 100) 60]] ∧
    isPatchEffect (Effect.logWarningConflict [mkPeer 100 "twin" 10 (some 100) 60]) =
      false := by
  exact ⟨rfl, rfl⟩

/-- C3 (amended): rerunning the event processor on an unchanged peer set
never flips the flag again, and the only effects the second run may emit
are the repeated cleanup patch and the unguarded equal-priority conflict
warning; the flag state is checked before flipping in every branch, and
before logging in the higher-priority and resume branches, but not before
the conflict warning. -/
theorem process_second_invocation (now : Int) (ev : RawEvent) (flag : Bool)
    (ns : Option String) (identity : String) (settings : Settings)
    (autoclean : Bool) :
    (process_peering_event now ev
        (process_peering_event now ev flag ns identity settings autoclean).freeze
        ns identity settings autoclean).freeze =
      (process_peering_event now ev flag ns identity settings autoclean).freeze ∧
    ∀ e ∈ (process_peering_event now ev
        (process_peering_event now ev flag ns identity settings autoclean).freeze
        ns identity settings autoclean).effects,
      isPatchEffect e = true ∨ ∃ l, e = Effect.logWarningConflict l := by
  by_cases hmatch : ev.meta_namespace ≠ ns ∨ ev.meta_name ≠ some settings.name
  · simp [process_peering_event, hmatch]
  · push_neg at hmatch
    obtain ⟨hns, hname⟩ := hmatch
    rw [process_peering_event_matched now ev flag ns identity settings autoclean hns hname]
    dsimp only
    rw [process_peering_event_matched now ev _ ns identity settings autoclean hns hname]
    constructor
    · exact (peering_decision_stable flag (parse_peers now ev)
        (event_prio_peers now ev identity settings)
        (event_same_peers now ev identity settings)).1
    · intro e he
      rcases List.mem_append.mp he with h1 | h2
      · exact Or.inl (clean_effects_are_patches (event_dead_peers now ev)
          settings ns autoclean e h1)
      · exact Or.inr ((peering_decision_stable flag (parse_peers now ev)
          (event_prio_peers now ev identity settings)
          (event_same_peers now ev identity settings)).2 e h2)

/-- C3 (amended) witness: the second run keeps the flag value, and its one
emitted effect is the conflict warning, not a patch. -/
theorem process_second_invocation_witness :
    (process_peering_event 100 exEventSame
        (process_peering_event 100 exEventSame false none "me" exSettings true).freeze
        none "me" exSettings true).freeze =
      (process_peering_event 100 exEventSame false none "me" exSettings true).freeze ∧
    (isPatchEffect (Effect.logWarningConflict [mkPeer 100 "twin" 10 (some 100) 60]) = true ∨
      ∃ l, Effect.logWarningConflict [mkPeer 100 "twin" 10 (some 100) 60] =
        Effect.logWarningConflict l) := by
  have h := process_second_invocation 100 exEventSame false none "me" exSettings true
  exact ⟨h.1, h.2 _ (by decide)⟩

/-- C10: a matching notification whose body has no (or an empty) status
mapping yields an empty peer set: no cleanup patch is issued, the flag ends
off (flipped only if it was on), and with the flag already off nothing at
all is emitted. -/
theorem process_empty_status (now : Int) (ev : RawEvent) (flag : Bool)
    (ns : Option String) (identity : String) (settings : Settings)
    (autoclean : Bool)
    (hns : ev.meta_namespace = ns) (hname : ev.meta_name = some settings.name)
    (hstatus : ev.status = none ∨ ev.status = some []) :
    (process_peering_event now ev flag ns identity settings autoclean).freeze = false ∧
    (∀ e ∈ (process_peering_event now ev flag ns identity settings autoclean).effects,
      isPatchEffect e = false) ∧
    (flag = false →
      (process_peering_event now ev flag ns identity settings autoclean).effects = []) := by
  have hpeers : parse_peers now ev = [] := by
    rcases hstatus with h | h <;> simp [parse_peers, h]
  rw [process_peering_event_matched now ev flag ns identity settings autoclean hns hname]
  have hdead : event_dead_peers now ev = [] := by
    simp [event_dead_peers, dead_peers_of, hpeers]
  have hprio : event_prio_peers now ev identity settings = [] := by
    simp [event_prio_peers, prio_peers_of, live_peers_of, hpeers]
  have hsame : event_same_peers now ev identity settings = [] := by
    simp [event_same_peers, same_peers_of, live_peers_of, hpeers]
  rw [hdead, hprio, hsame]
  cases flag <;> simp [peering_decision, isPatchEffect]

/-- C10 witness: a status-less body with the flag on turns it off. -/
theorem process_empty_status_witness :
    (process_peering_event 100 exEventEmpty true none "me" exSettings true).freeze = false := by
  exact (process_empty_status 100 exEventEmpty true none "me" exSettings true
    rfl rfl (Or.inl rfl)).1

end Peering
